import Mathlib

/-!
Verification of the stock_screener analytics core against its specification.

The Python sources are shallowly embedded: dictionaries with numeric values
become structures of `Option ℚ` fields (a missing key reads as the `.get`
default), pandas/NumPy float arithmetic becomes ℚ arithmetic, and the one
float phenomenon the spec talks about — division by zero producing a
non-finite value (inf/NaN) — is modelled explicitly by the `FVal` type.
-/

namespace StockScreener

/-- Result of a NumPy float computation: either a finite value or a
non-finite one (±inf or NaN), which float division by zero produces. -/
inductive FVal where
  | fin (q : ℚ)
  | nonfin
  deriving DecidableEq

/-- Float division: a zero denominator yields a non-finite value
(inf for a nonzero numerator, NaN for 0/0), never an exception. -/
def fdiv (a b : ℚ) : FVal := if b = 0 then .nonfin else .fin (a / b)

/-! ## RiskManager (src/src/risk_manager.py) -/

/-- A trade signal dict: `signal.get('price', 0)` etc.; a missing key is
`none` and reads as the default 0. -/
structure TradeSignal where
  price : Option ℚ
  stopLoss : Option ℚ
  quantity : Option ℚ
  deriving DecidableEq

/-- An open-position dict inside the portfolio. -/
structure PositionInfo where
  currentPrice : Option ℚ
  stopLoss : Option ℚ
  quantity : Option ℚ
  deriving DecidableEq

/-- A portfolio snapshot dict. -/
structure Portfolio where
  buyingPower : Option ℚ
  portfolioValue : Option ℚ
  positions : List PositionInfo
  deriving DecidableEq

/-- `RiskManager._calculate_trade_risk` (risk_manager.py:114-131): non-positive
or missing price/stop_loss/quantity makes the trade risk 0.0. -/
def calculate_trade_risk (s : TradeSignal) : ℚ :=
  let price := s.price.getD 0
  let stopLoss := s.stopLoss.getD 0
  let quantity := s.quantity.getD 0
  if price ≤ 0 ∨ stopLoss ≤ 0 ∨ quantity ≤ 0 then 0
  else |price - stopLoss| * quantity

/-- `RiskManager._calculate_position_risk` (risk_manager.py:133-150). -/
def calculate_position_risk (p : PositionInfo) : ℚ :=
  let currentPrice := p.currentPrice.getD 0
  let stopLoss := p.stopLoss.getD 0
  let quantity := p.quantity.getD 0
  if currentPrice ≤ 0 ∨ stopLoss ≤ 0 ∨ quantity ≤ 0 then 0
  else |currentPrice - stopLoss| * quantity

/-- `RiskManager._calculate_current_portfolio_risk` (risk_manager.py:99-112). -/
def calculate_current_portfolio_risk (p : Portfolio) : ℚ :=
  (p.positions.map calculate_position_risk).sum

/-- `RiskManager._check_buying_power` (risk_manager.py:63-73). -/
def check_buying_power (s : TradeSignal) (p : Portfolio) : Bool :=
  decide (p.buyingPower.getD 0 ≥ s.price.getD 0 * s.quantity.getD 0)

/-- `RiskManager._check_position_size` (risk_manager.py:75-85);
`maxPositionSize` is the constructor default 0.1. -/
def check_position_size (maxPositionSize : ℚ) (s : TradeSignal) (p : Portfolio) : Bool :=
  decide (s.price.getD 0 * s.quantity.getD 0 ≤ p.portfolioValue.getD 0 * maxPositionSize)

/-- `RiskManager._check_portfolio_risk` (risk_manager.py:87-97);
`maxPortfolioRisk` is the constructor default 0.02. -/
def check_portfolio_risk (maxPortfolioRisk : ℚ) (s : TradeSignal) (p : Portfolio) : Bool :=
  decide (calculate_current_portfolio_risk p + calculate_trade_risk s ≤ maxPortfolioRisk)

/-- `RiskManager.validate_trade` (risk_manager.py:18-37): the conjunction of
the three checks, returning False as soon as one fails. -/
def validate_trade (maxPositionSize maxPortfolioRisk : ℚ)
    (s : TradeSignal) (p : Portfolio) : Bool :=
  check_buying_power s p &&
  check_position_size maxPositionSize s p &&
  check_portfolio_risk maxPortfolioRisk s p

/-- `RiskManager.calculate_position_size` (risk_manager.py:39-61).
`lastClose` is `stock_data['close'].iloc[-1]`; `none` models an empty frame,
whose `iloc[-1]` raises and is caught, returning 0. -/
def calculate_position_size (maxPositionSize : ℚ)
    (portfolioValue : Option ℚ) (lastClose : Option ℚ) : ℚ :=
  let pv := portfolioValue.getD 0
  if pv ≤ 0 then 0
  else
    match lastClose with
    | none => 0
    | some currentPrice =>
        if currentPrice ≤ 0 then 0
        else pv * maxPositionSize / currentPrice

/-- Concrete inputs refuting claim C1: a signal whose stop_loss is 0. -/
def c1sig : TradeSignal := ⟨some 10, some 0, some 1⟩

/-- Concrete portfolio for the C1 counterexample. -/
def c1port : Portfolio := ⟨some 100, some 1000, []⟩

end StockScreener

namespace StockScreener

/-- Claim C1, as stated, is false: with stop_loss = 0 (non-positive) the
risk checks do not fail closed — `validate_trade` returns true, because the
trade-risk computation treats the trade as zero risk. -/
theorem c1_validate_true_on_nonpositive_stop :
    c1sig.stopLoss.getD 0 ≤ 0 ∧
    validate_trade (1/10) (1/50) c1sig c1port = true := by
  norm_num [c1sig, c1port, validate_trade, check_buying_power,
    check_position_size, check_portfolio_risk, calculate_trade_risk,
    calculate_current_portfolio_risk]

/-- Claim C1 (amended): a missing or non-positive price, stop_loss or
quantity makes the owning risk computation return 0.0 (the trade or position
contributes no risk) rather than raising; `validate_trade` is then decided by
the remaining checks and need not return false. -/
theorem c1_nonpositive_inputs_zero_risk (s : TradeSignal) (pos : PositionInfo)
    (hs : s.price.getD 0 ≤ 0 ∨ s.stopLoss.getD 0 ≤ 0 ∨ s.quantity.getD 0 ≤ 0)
    (hp : pos.currentPrice.getD 0 ≤ 0 ∨ pos.stopLoss.getD 0 ≤ 0 ∨
      pos.quantity.getD 0 ≤ 0) :
    calculate_trade_risk s = 0 ∧ calculate_position_risk pos = 0 := by
  constructor
  · simp only [calculate_trade_risk]
    rw [if_pos hs]
  · simp only [calculate_position_risk]
    rw [if_pos hp]

/-- Witness for C1's amended theorem at a concrete signal and position. -/
theorem c1_zero_risk_witness :
    calculate_trade_risk ⟨some 10, some 0, some 1⟩ = 0 ∧
    calculate_position_risk ⟨some 5, none, some 2⟩ = 0 :=
  c1_nonpositive_inputs_zero_risk ⟨some 10, some 0, some 1⟩ ⟨some 5, none, some 2⟩
    (Or.inr (Or.inl (by norm_num))) (Or.inr (Or.inl (by norm_num)))

/-- Claim C4: whenever buying power is strictly below price*quantity, the
buying-power check fails and `validate_trade` returns false regardless of the
other two checks. -/
theorem c4_validate_false_on_insufficient_buying_power
    (maxPositionSize maxPortfolioRisk : ℚ) (s : TradeSignal) (p : Portfolio)
    (h : p.buyingPower.getD 0 < s.price.getD 0 * s.quantity.getD 0) :
    validate_trade maxPositionSize maxPortfolioRisk s p = false := by
  have hbp : check_buying_power s p = false :=
    decide_eq_false (not_le.mpr h)
  simp only [validate_trade, hbp, Bool.false_and]

/-- Witness for C4 at a concrete underfunded portfolio. -/
theorem c4_buying_power_witness :
    validate_trade (1/10) (1/50) ⟨some 10, some 5, some 3⟩ ⟨some 1, some 1000, []⟩
      = false :=
  c4_validate_false_on_insufficient_buying_power (1/10) (1/50)
    ⟨some 10, some 5, some 3⟩ ⟨some 1, some 1000, []⟩ (by norm_num)

/-- Claim C5: `calculate_position_size` returns 0 when portfolio value or
current price is non-positive, otherwise portfolio_value * max_position_size
/ current_price; in particular 100000 * 0.1 / 50 = 200, and price 0 gives 0. -/
theorem c5_position_size_formula (f pv cp : ℚ) :
    (pv ≤ 0 → calculate_position_size f (some pv) (some cp) = 0) ∧
    (cp ≤ 0 → calculate_position_size f (some pv) (some cp) = 0) ∧
    (0 < pv → 0 < cp → calculate_position_size f (some pv) (some cp) = pv * f / cp) ∧
    calculate_position_size (1/10) (some 100000) (some 50) = 200 ∧
    calculate_position_size (1/10) (some 100000) (some 0) = 0 := by
  refine ⟨?_, ?_, ?_, ?_, ?_⟩
  · intro h
    simp [calculate_position_size, h]
  · intro h
    by_cases hpv : pv ≤ 0
    · simp [calculate_position_size, hpv]
    · simp [calculate_position_size, hpv, h]
  · intro hpv hcp
    simp [calculate_position_size, not_le.mpr hpv, not_le.mpr hcp]
  · norm_num [calculate_position_size]
  · norm_num [calculate_position_size]

/-- Witness for C5 at the spec's example inputs. -/
theorem c5_position_size_witness :
    calculate_position_size (1/10) (some 100000) (some 50) = 100000 * (1/10) / 50 :=
  (c5_position_size_formula (1/10) 100000 50).2.2.1 (by norm_num) (by norm_num)

/-! ## Sharpe ratios (src/backtesting.py:136, src/backtester.py:29-37) -/

/-- `np.mean`: sum over length. -/
def npMean (xs : List ℚ) : ℚ := xs.sum / xs.length

/-- Population variance, the square of `np.std`. -/
def popVariance (xs : List ℚ) : ℚ := npMean (xs.map (fun x => (x - npMean xs) ^ 2))

/-- `np.std`: the square root of the population variance. Square roots are
irrational over ℚ, so the root extraction `sqrtFn` is a parameter; IEEE sqrt
satisfies `sqrtFn 0 = 0`, the only fact the theorems use. -/
def npStd (sqrtFn : ℚ → ℚ) (xs : List ℚ) : ℚ := sqrtFn (popVariance xs)

/-- Trade-level ratio of `Backtester._generate_backtest_stats`
(backtesting.py:136): `np.mean(pcts) / np.std(pcts) if len(pcts) > 1 else 0`.
The division is float division, so a zero stddev yields a non-finite value. -/
def trade_sharpe (sqrtFn : ℚ → ℚ) (pcts : List ℚ) : FVal :=
  if 1 < pcts.length then fdiv (npMean pcts) (npStd sqrtFn pcts) else .fin 0

/-- `Backtester.calculate_sharpe_ratio` (backtester.py:29-37): series-level
Sharpe with an explicit zero-volatility guard. -/
def calculate_sharpe_ratio (returns volatility riskFreeRate : ℚ) : ℚ :=
  if volatility = 0 then 0 else (returns - riskFreeRate) / volatility

/-- Claim C7, as stated, is false: with two equal pnl percentages the
stddev (volatility) is 0, and the trade-level ratio divides by zero, giving a
non-finite float (inf/NaN) instead of 0. IEEE sqrt is the identity at 0, so
the identity stands in for the root extraction. -/
theorem c7_trade_sharpe_nonfinite_on_zero_std :
    popVariance [5, 5] = 0 ∧
    trade_sharpe (fun q => q) [5, 5] = FVal.nonfin ∧
    FVal.nonfin ≠ FVal.fin 0 := by
  refine ⟨by norm_num [popVariance, npMean], ?_, by simp⟩
  norm_num [trade_sharpe, fdiv, npStd, popVariance, npMean]

/-- Claim C7 (amended): the series-level Sharpe returns 0 whenever volatility
is 0, and the trade-level ratio returns 0 whenever there are fewer than two
trades, neither raising; but the trade-level ratio over two or more trades
with zero pnl-percent dispersion divides by zero and yields a non-finite
float, not 0. -/
theorem c7_sharpe_zero_guards (sqrtFn : ℚ → ℚ) (pcts : List ℚ)
    (returns volatility riskFreeRate : ℚ) :
    (volatility = 0 → calculate_sharpe_ratio returns volatility riskFreeRate = 0) ∧
    (pcts.length ≤ 1 → trade_sharpe sqrtFn pcts = .fin 0) ∧
    (1 < pcts.length → popVariance pcts = 0 → sqrtFn 0 = 0 →
      trade_sharpe sqrtFn pcts = .nonfin) := by
  refine ⟨?_, ?_, ?_⟩
  · intro h
    simp [calculate_sharpe_ratio, h]
  · intro h
    simp [trade_sharpe, not_lt.mpr h]
  · intro hl hv hs
    simp [trade_sharpe, hl, fdiv, npStd, hv, hs]

/-- Witness for C7's amended theorem at concrete inputs for each guard. -/
theorem c7_sharpe_witness :
    calculate_sharpe_ratio 5 0 (1/50) = 0 ∧
    trade_sharpe (fun q => q) [7] = .fin 0 ∧
    trade_sharpe (fun q => q) [3, 3] = .nonfin :=
  ⟨(c7_sharpe_zero_guards (fun q => q) [7] 5 0 (1/50)).1 rfl,
   (c7_sharpe_zero_guards (fun q => q) [7] 5 0 (1/50)).2.1 (by norm_num),
   (c7_sharpe_zero_guards (fun q => q) [3, 3] 5 0 (1/50)).2.2 (by norm_num)
     (by norm_num [popVariance, npMean]) rfl⟩

/-! ## BacktestEngine (src/backtesting.py) -/

/-- A row of the backtester's DataFrame: timestamp (as an integer day),
close, and the SMA_20/SMA_50 indicator columns it reads. -/
structure Bar where
  date : ℤ
  close : ℚ
  sma20 : ℚ
  sma50 : ℚ
  deriving DecidableEq

/-- Entry condition of `Backtester._backtest_momentum` (backtesting.py:45-46):
`current SMA_20 > SMA_50 and previous SMA_20 <= SMA_50`. -/
def bullishCrossCond (prevS prevL curS curL : ℚ) : Bool :=
  decide (curS > curL) && decide (prevS ≤ prevL)

/-- Exit condition of `Backtester._backtest_momentum` (backtesting.py:53-54):
`current SMA_20 < SMA_50 and previous SMA_20 >= SMA_50`. -/
def bearishCrossCond (prevS prevL curS curL : ℚ) : Bool :=
  decide (curS < curL) && decide (prevS ≥ prevL)

/-- The entry condition on a (previous, current) pair of rows. -/
def is_bullish_pair (pc : Bar × Bar) : Bool :=
  bullishCrossCond pc.1.sma20 pc.1.sma50 pc.2.sma20 pc.2.sma50

/-- The exit condition on a (previous, current) pair of rows. -/
def is_bearish_pair (pc : Bar × Bar) : Bool :=
  bearishCrossCond pc.1.sma20 pc.1.sma50 pc.2.sma20 pc.2.sma50

/-- `TradeResult` (backtesting.py:6-15), dates as integer days. -/
structure TradeResultM where
  entryDate : ℤ
  exitDate : ℤ
  entryPrice : ℚ
  exitPrice : ℚ
  profitLoss : ℚ
  profitLossPct : ℚ
  holdingPeriod : ℤ
  strategy : String
  deriving DecidableEq

/-- The loop state of `_backtest_momentum`: position flag, entry bookkeeping,
the trade ledger and the compounded capital. -/
structure BTState where
  position : Bool
  entryPrice : ℚ
  entryDate : ℤ
  trades : List TradeResultM
  capital : ℚ
  deriving DecidableEq

/-- One iteration of the `_backtest_momentum` loop (backtesting.py:39-72) on
the (previous, current) pair of rows. -/
def btStep (st : BTState) (pc : Bar × Bar) : BTState :=
  if st.position = false then
    if is_bullish_pair pc then
      { st with position := true, entryPrice := pc.2.close, entryDate := pc.2.date }
    else st
  else
    if is_bearish_pair pc then
      let exitPrice := pc.2.close
      let profitLoss := exitPrice - st.entryPrice
      let profitLossPct := profitLoss / st.entryPrice * 100
      { position := false, entryPrice := st.entryPrice, entryDate := st.entryDate,
        trades := st.trades ++ [⟨st.entryDate, pc.2.date, st.entryPrice, exitPrice,
          profitLoss, profitLossPct, pc.2.date - st.entryDate, "momentum"⟩],
        capital := st.capital * (1 + profitLossPct / 100) }
    else st

/-- The (previous, current) row pairs visited by the loop
`for i in range(20, len(data))`. -/
def replayPairs (data : List Bar) : List (Bar × Bar) :=
  (data.drop 19).zip (data.drop 20)

/-- All consecutive (previous, current) row pairs of the series. -/
def consecPairs (data : List Bar) : List (Bar × Bar) :=
  data.zip (data.drop 1)

/-- Replay of `_backtest_momentum` over the whole series, starting with no
position and the initial capital 100000. -/
def backtest_momentum (data : List Bar) : BTState :=
  (replayPairs data).foldl btStep ⟨false, 0, 0, [], 100000⟩

/-- The closes of the series are strictly increasing. -/
def strictIncrCloses : List Bar → Bool
  | [] => true
  | [_] => true
  | a :: b :: rest => decide (a.close < b.close) && strictIncrCloses (b :: rest)

/-- Largest element of a list (pandas-style `max`, only ever used nonempty). -/
def listMax : List ℚ → ℚ
  | [] => 0
  | x :: xs => xs.foldl max x

/-- Smallest element of a list (pandas-style `min`, only ever used nonempty). -/
def listMin : List ℚ → ℚ
  | [] => 0
  | x :: xs => xs.foldl min x

/-- The metric fields of the stats dict built by
`Backtester._generate_backtest_stats` (backtesting.py:125-137). -/
structure BTStats where
  totalTrades : ℕ
  winningTrades : ℕ
  losingTrades : ℕ
  avgProfitLoss : ℚ
  avgProfitLossPct : ℚ
  maxProfit : ℚ
  maxLoss : ℚ
  avgHoldingPeriod : ℚ
  finalCapital : ℚ
  totalReturnPct : ℚ
  sharpe : FVal
  deriving DecidableEq

/-- The dict returned by `_generate_backtest_stats`: either just the
`{"error": "No trades executed"}` marker, or the full stats dict. -/
inductive BacktestReport where
  | error (msg : String)
  | stats (s : BTStats)
  deriving DecidableEq

/-- `Backtester._generate_backtest_stats` (backtesting.py:116-137). -/
def generate_backtest_stats (sqrtFn : ℚ → ℚ) (initialCapital currentCapital : ℚ)
    (trades : List TradeResultM) : BacktestReport :=
  if trades.isEmpty then .error "No trades executed"
  else
    let profits := trades.map (·.profitLoss)
    let profitPcts := trades.map (·.profitLossPct)
    let holdingPeriods := trades.map (fun t => (t.holdingPeriod : ℚ))
    .stats {
      totalTrades := trades.length
      winningTrades := (profits.filter (fun p => decide (p > 0))).length
      losingTrades := (profits.filter (fun p => decide (p ≤ 0))).length
      avgProfitLoss := npMean profits
      avgProfitLossPct := npMean profitPcts
      maxProfit := listMax profits
      maxLoss := listMin profits
      avgHoldingPeriod := npMean holdingPeriods
      finalCapital := currentCapital
      totalReturnPct := (currentCapital - initialCapital) / initialCapital * 100
      sharpe := trade_sharpe sqrtFn profitPcts }

/-- `Backtester.run_backtest('momentum')`: replay then stats, with the
instance's initial capital 100000. -/
def run_backtest_momentum (sqrtFn : ℚ → ℚ) (data : List Bar) : BacktestReport :=
  generate_backtest_stats sqrtFn 100000 (backtest_momentum data).capital
    (backtest_momentum data).trades

/-- The metric fields carried by a report, if any. -/
def statsOfReport : BacktestReport → Option BTStats
  | .error _ => none
  | .stats s => some s

/-- A short (3-bar) series: shorter than the 20-bar warm-up, so the replay
visits no pair and records no trade. -/
def c8series : List Bar :=
  [⟨0, 10, 1, 2⟩, ⟨1, 11, 1, 2⟩, ⟨2, 12, 1, 2⟩]

/-- A step on a pair that does not satisfy the exit condition never appends
a trade. -/
lemma btStep_trades_of_not_bearish (st : BTState) (pc : Bar × Bar)
    (h : is_bearish_pair pc = false) : (btStep st pc).trades = st.trades := by
  unfold btStep
  split
  · split
    · rfl
    · rfl
  · rw [h]
    simp

/-- Replaying over pairs none of which satisfies the exit condition leaves
the trade ledger unchanged. -/
lemma foldl_btStep_no_bearish :
    ∀ (ps : List (Bar × Bar)) (st : BTState),
      (∀ pc ∈ ps, is_bearish_pair pc = false) →
      (ps.foldl btStep st).trades = st.trades
  | [], _, _ => rfl
  | pc :: ps, st, h => by
    rw [List.foldl_cons,
      foldl_btStep_no_bearish ps (btStep st pc)
        (fun x hx => h x (List.mem_cons_of_mem _ hx)),
      btStep_trades_of_not_bearish st pc (h pc (List.mem_cons_self _ _))]

/-- Zipping two lists after dropping `n` from both equals dropping `n` pairs. -/
lemma zip_drop_comm {α : Type} (n : ℕ) :
    ∀ (l l' : List α), (l.drop n).zip (l'.drop n) = (l.zip l').drop n := by
  induction n with
  | zero => intro l l'; rfl
  | succ n ih =>
    intro l l'
    cases l with
    | nil => simp
    | cons a as =>
      cases l' with
      | nil => simp
      | cons b bs => simpa using ih as bs

/-- The pairs the replay visits are the series' consecutive pairs minus the
first 19 (the warm-up). -/
lemma replayPairs_eq_drop (data : List Bar) :
    replayPairs data = (consecPairs data).drop 19 := by
  unfold replayPairs consecPairs
  rw [show data.drop 20 = (data.drop 1).drop 19 from by
    rw [List.drop_drop]]
  exact zip_drop_comm 19 data (data.drop 1)

end StockScreener

namespace StockScreener

/-- Claim C8, as stated, is false: over a series with zero qualifying
entries the report is exactly the "No trades executed" error marker and
carries no metric fields at all. -/
theorem c8_no_trades_report_fields_absent :
    run_backtest_momentum (fun q => q) c8series = .error "No trades executed" ∧
    statsOfReport (run_backtest_momentum (fun q => q) c8series) = none :=
  ⟨rfl, rfl⟩

/-- Claim C8 (amended): a replay that records zero trades yields the report
consisting exactly of the explicit "No trades executed" error marker, raising
no fault; the metric fields are absent from that report, not zeroed. -/
theorem c8_empty_trades_error_report (sqrtFn : ℚ → ℚ) (data : List Bar)
    (h : (backtest_momentum data).trades = []) :
    run_backtest_momentum sqrtFn data = .error "No trades executed" ∧
    statsOfReport (run_backtest_momentum sqrtFn data) = none := by
  have hrun : run_backtest_momentum sqrtFn data = .error "No trades executed" := by
    unfold run_backtest_momentum generate_backtest_stats
    rw [h]
    rfl
  exact ⟨hrun, by rw [hrun]; rfl⟩

/-- Witness for C8's amended theorem on the empty series. -/
theorem c8_error_report_witness :
    run_backtest_momentum (fun q => q) [] = .error "No trades executed" ∧
    statsOfReport (run_backtest_momentum (fun q => q) []) = none :=
  c8_empty_trades_error_report (fun q => q) [] rfl

end StockScreener

namespace StockScreener

/-- A strictly increasing 21-bar series whose SMA columns contain exactly one
bullish cross (at the last bar) and no bearish cross. -/
def ex6bars : List Bar :=
  [⟨0, 1, 1, 2⟩, ⟨1, 2, 1, 2⟩, ⟨2, 3, 1, 2⟩, ⟨3, 4, 1, 2⟩, ⟨4, 5, 1, 2⟩,
   ⟨5, 6, 1, 2⟩, ⟨6, 7, 1, 2⟩, ⟨7, 8, 1, 2⟩, ⟨8, 9, 1, 2⟩, ⟨9, 10, 1, 2⟩,
   ⟨10, 11, 1, 2⟩, ⟨11, 12, 1, 2⟩, ⟨12, 13, 1, 2⟩, ⟨13, 14, 1, 2⟩,
   ⟨14, 15, 1, 2⟩, ⟨15, 16, 1, 2⟩, ⟨16, 17, 1, 2⟩, ⟨17, 18, 1, 2⟩,
   ⟨18, 19, 1, 2⟩, ⟨19, 20, 1, 2⟩, ⟨20, 21, 3, 2⟩]

/-- Claim C6, as stated, is false: over this strictly increasing series with
exactly one bullish cross event, the replay opens a position at the cross but
never closes it, so it produces zero closed trades, not one. -/
theorem c6_single_cross_zero_trades :
    strictIncrCloses ex6bars = true ∧
    (consecPairs ex6bars).countP is_bullish_pair = 1 ∧
    (backtest_momentum ex6bars).trades.length = 0 := by
  refine ⟨?_, ?_, ?_⟩
  · norm_num [ex6bars, strictIncrCloses]
  · norm_num [ex6bars, consecPairs, List.drop, List.zip, List.zipWith,
      List.countP, List.countP.go, is_bullish_pair, bullishCrossCond]
  · norm_num [ex6bars, backtest_momentum, replayPairs, List.drop, List.zip,
      List.zipWith, List.foldl, btStep, is_bullish_pair, is_bearish_pair,
      bullishCrossCond, bearishCrossCond]

/-- Claim C6 (amended): over a strictly increasing series whose indicator
columns contain exactly one bullish cross and no bearish cross, the replay
produces zero closed trades — the position opened at the cross is still open
at series end and is not counted — and the report is the explicit
"No trades executed" marker. -/
theorem c6_no_bearish_cross_no_trades (sqrtFn : ℚ → ℚ) (data : List Bar)
    (h1 : strictIncrCloses data = true)
    (h2 : (consecPairs data).countP is_bullish_pair = 1)
    (h3 : ∀ pc ∈ consecPairs data, is_bearish_pair pc = false) :
    (backtest_momentum data).trades = [] ∧
    run_backtest_momentum sqrtFn data = .error "No trades executed" := by
  have hnb : ∀ pc ∈ replayPairs data, is_bearish_pair pc = false := by
    intro pc hpc
    apply h3
    rw [replayPairs_eq_drop] at hpc
    exact List.drop_subset _ _ hpc
  have ht : (backtest_momentum data).trades = [] := by
    unfold backtest_momentum
    rw [foldl_btStep_no_bearish _ _ hnb]
  refine ⟨ht, ?_⟩
  unfold run_backtest_momentum generate_backtest_stats
  rw [ht]
  rfl

/-- Witness for C6's amended theorem on the concrete series above. -/
theorem c6_no_trades_witness :
    (backtest_momentum ex6bars).trades = [] ∧
    run_backtest_momentum (fun q => q) ex6bars = .error "No trades executed" :=
  c6_no_bearish_cross_no_trades (fun q => q) ex6bars
    (by norm_num [ex6bars, strictIncrCloses])
    (by norm_num [ex6bars, consecPairs, List.drop, List.zip, List.zipWith,
      List.countP, List.countP.go, is_bullish_pair, bullishCrossCond])
    (by
      intro pc hpc
      have hall : (consecPairs ex6bars).all (fun x => !is_bearish_pair x) = true := by
        norm_num [ex6bars, consecPairs, List.drop, List.zip, List.zipWith,
          List.all, is_bearish_pair, bearishCrossCond]
      have hx := List.all_eq_true.mp hall pc hpc
      simpa using hx)

/-! ## SignalGenerator cross detection
(src/src/technical_analysis.py:65-93 and src/backtesting.py:44-54) -/

/-- The `sma_20_50_cross` field of `TechnicalIndicators.get_signals`
(technical_analysis.py:71): a level-based label computed from the latest bar
only. -/
def sma_cross_signal (sma20 sma50 : ℚ) : String :=
  if sma20 > sma50 then "BULLISH" else "BEARISH"

end StockScreener

namespace StockScreener

/-- Claim C3, as stated, is false for `get_signals`: its cross field is
level-based, so over two consecutive bars with the short average above the
long one throughout (no order flip) it reports BULLISH at both bars, firing
again at a bar where the edge condition (previous short ≤ previous long) does
not hold. -/
theorem c3_level_signal_refires :
    sma_cross_signal 3 2 = "BULLISH" ∧
    sma_cross_signal 4 2 = "BULLISH" ∧
    bullishCrossCond 3 2 4 2 = false := by
  refine ⟨?_, ?_, ?_⟩ <;> norm_num [sma_cross_signal, bullishCrossCond]

/-- Claim C3 (amended): the backtester's entry/exit conditions are
edge-triggered — over any contiguous interval of bars where the ordering of
the short and long averages (including ties) is constant, neither the bullish
nor the bearish cross condition fires at any bar whose predecessor lies in
the interval, so each fires at most once per such interval; `get_signals`'s
`sma_20_50_cross` field, by contrast, is a level-based label that recurs at
every bar where SMA_20 > SMA_50. -/
theorem c3_edge_cross_at_most_once (s l : ℕ → ℚ) (a b : ℕ)
    (hord : ∀ j, a ≤ j → j ≤ b → ((s j < l j ↔ s a < l a) ∧ (l j < s j ↔ l a < s a)))
    (i : ℕ) (hai : a < i) (hib : i ≤ b) :
    bullishCrossCond (s (i - 1)) (l (i - 1)) (s i) (l i) = false ∧
    bearishCrossCond (s (i - 1)) (l (i - 1)) (s i) (l i) = false := by
  have hprev := hord (i - 1) (by omega) (by omega)
  have hcur := hord i (le_of_lt hai) hib
  rcases lt_trichotomy (s a) (l a) with h | h | h
  · have hci : s i < l i := hcur.1.mpr h
    have hpi : s (i - 1) < l (i - 1) := hprev.1.mpr h
    constructor
    · simp [bullishCrossCond, lt_asymm hci]
    · simp [bearishCrossCond, not_le.mpr hpi]
  · have hna : ¬ (s a < l a) := by rw [h]; exact lt_irrefl _
    have hna' : ¬ (l a < s a) := by rw [h]; exact lt_irrefl _
    constructor
    · simp [bullishCrossCond, mt hcur.2.mp hna']
    · simp [bearishCrossCond, mt hcur.1.mp hna]
  · have hpi : l (i - 1) < s (i - 1) := hprev.2.mpr h
    have hci : l i < s i := hcur.2.mpr h
    constructor
    · simp [bullishCrossCond, not_le.mpr hpi]
    · simp [bearishCrossCond, lt_asymm hci]

/-- Witness for C3's amended theorem at constant concrete averages. -/
theorem c3_edge_cross_witness :
    bullishCrossCond 2 1 2 1 = false ∧ bearishCrossCond 2 1 2 1 = false :=
  c3_edge_cross_at_most_once (fun _ => 2) (fun _ => 1) 0 5
    (fun _ _ _ => ⟨Iff.rfl, Iff.rfl⟩) 3 (by norm_num) (by norm_num)

/-! ## OptionsAnalysis (src/src/options_analysis.py) -/

/-- A row of an option-chain DataFrame. `strikeDiff` is the `strike_diff`
column, absent (`none`) until `_find_atm_option` writes it. -/
structure OptionRow where
  strike : ℚ
  lastPrice : ℚ
  impliedVolatility : ℚ
  strikeDiff : Option ℚ
  deriving DecidableEq

/-- The `OptionsStrategy` dataclass (options_analysis.py:8-18). The
risk/reward field is a float ratio, so it is an `FVal`. -/
structure OptionsStrategy where
  strategyType : String
  entryPrice : ℚ
  exitPrice : ℚ
  maxLoss : ℚ
  maxProfit : ℚ
  probabilityProfit : ℚ
  riskReward : FVal
  daysToExpiry : ℕ
  impliedVolatility : ℚ
  deriving DecidableEq

/-- Writing the `strike_diff` column into one row. -/
def set_strike_diff (price : ℚ) (r : OptionRow) : OptionRow :=
  { r with strikeDiff := some |r.strike - price| }

/-- Erasing the `strike_diff` column from one row. -/
def clear_strike_diff (r : OptionRow) : OptionRow :=
  { r with strikeDiff := none }

/-- Pandas `idxmin` then `loc` over the `strike_diff` column: the first row
holding the minimal value. -/
def argmin_strike_diff : List OptionRow → Option OptionRow
  | [] => none
  | x :: xs =>
      some (xs.foldl
        (fun best y => if y.strikeDiff.getD 0 < best.strikeDiff.getD 0 then y else best) x)

/-- `OptionsAnalysis._find_atm_option` (options_analysis.py:313-320). It
returns the selected row AND the chain as the caller sees it afterwards: an
empty chain is returned untouched, a nonempty one has the `strike_diff`
column written into every row before `idxmin` runs. -/
def find_atm_option (price : ℚ) (chain : List OptionRow) :
    Option OptionRow × List OptionRow :=
  if chain.isEmpty then (none, chain)
  else
    let written := chain.map (set_strike_diff price)
    (argmin_strike_diff written, written)

/-- The covered-call quote of `_get_bullish_strategies`
(options_analysis.py:248-260). -/
def covered_call (price : ℚ) (c : OptionRow) : OptionsStrategy :=
  { strategyType := "Covered Call", entryPrice := price, exitPrice := c.strike,
    maxLoss := price - c.lastPrice, maxProfit := c.lastPrice,
    probabilityProfit := 68/100,
    riskReward := fdiv c.lastPrice (price - c.lastPrice),
    daysToExpiry := 30, impliedVolatility := c.impliedVolatility }

/-- The put-spread quote of `_get_bearish_strategies`
(options_analysis.py:271-283). -/
def put_spread (p : OptionRow) : OptionsStrategy :=
  { strategyType := "Put Spread", entryPrice := p.strike,
    exitPrice := p.strike * (95/100), maxLoss := p.lastPrice,
    maxProfit := p.strike * (5/100) - p.lastPrice,
    probabilityProfit := 45/100,
    riskReward := fdiv p.lastPrice (p.strike * (5/100) - p.lastPrice),
    daysToExpiry := 30, impliedVolatility := p.impliedVolatility }

/-- The iron-condor quote of `_get_neutral_strategies`
(options_analysis.py:296-309). -/
def iron_condor (price : ℚ) (c p : OptionRow) : OptionsStrategy :=
  { strategyType := "Iron Condor", entryPrice := price, exitPrice := price,
    maxLoss := c.strike - p.strike, maxProfit := c.lastPrice + p.lastPrice,
    probabilityProfit := 68/100,
    riskReward := fdiv (c.strike - p.strike) (c.lastPrice + p.lastPrice),
    daysToExpiry := 30,
    impliedVolatility := (c.impliedVolatility + p.impliedVolatility) / 2 }

/-- `OptionsAnalysis._get_bullish_strategies` (options_analysis.py:241-262). -/
def get_bullish_strategies (price : ℚ) (calls : List OptionRow) :
    List OptionsStrategy :=
  match (find_atm_option price calls).1 with
  | none => []
  | some c => [covered_call price c]

/-- `OptionsAnalysis._get_bearish_strategies` (options_analysis.py:264-285). -/
def get_bearish_strategies (price : ℚ) (puts : List OptionRow) :
    List OptionsStrategy :=
  match (find_atm_option price puts).1 with
  | none => []
  | some p => [put_spread p]

/-- `OptionsAnalysis._get_neutral_strategies` (options_analysis.py:287-311). -/
def get_neutral_strategies (price : ℚ) (calls puts : List OptionRow) :
    List OptionsStrategy :=
  match (find_atm_option price calls).1, (find_atm_option price puts).1 with
  | some c, some p => [iron_condor price c p]
  | _, _ => []

/-- `OptionsAnalysis.suggest_strategies` (options_analysis.py:219-239):
dispatch on the SMA-cross label and the sentiment score. -/
def suggest_strategies (smaCross : String) (sentiment price : ℚ)
    (calls puts : List OptionRow) : List OptionsStrategy :=
  if smaCross = "BULLISH" ∧ sentiment > 6/10 then
    get_bullish_strategies price calls
  else if smaCross = "BEARISH" ∧ sentiment < 4/10 then
    get_bearish_strategies price puts
  else
    get_neutral_strategies price calls puts

/-- A neutral pick with an empty call chain yields no quote. -/
lemma get_neutral_strategies_nil_left (price : ℚ) (puts : List OptionRow) :
    get_neutral_strategies price [] puts = [] := by
  unfold get_neutral_strategies
  cases hp : (find_atm_option price puts).1 <;> rfl

/-- A neutral pick with an empty put chain yields no quote. -/
lemma get_neutral_strategies_nil_right (price : ℚ) (calls : List OptionRow) :
    get_neutral_strategies price calls [] = [] := by
  unfold get_neutral_strategies
  cases hp : (find_atm_option price calls).1 <;> rfl

/-- A single-row chain used to exhibit the `strike_diff` mutation. -/
def ex10chain : List OptionRow := [⟨100, 5, 1/2, none⟩]

end StockScreener

namespace StockScreener

/-- Claim C9: whichever strategy family the dispatch selects, an empty chain
for a leg that family requires makes `suggest_strategies` return the empty
list, and no exception escapes. -/
theorem c9_missing_leg_empty_strategies (cross : String) (sentiment price : ℚ)
    (calls puts : List OptionRow) :
    (cross = "BULLISH" → sentiment > 6/10 → calls = [] →
      suggest_strategies cross sentiment price calls puts = []) ∧
    (cross = "BEARISH" → sentiment < 4/10 → puts = [] →
      suggest_strategies cross sentiment price calls puts = []) ∧
    (¬(cross = "BULLISH" ∧ sentiment > 6/10) →
      ¬(cross = "BEARISH" ∧ sentiment < 4/10) →
      calls = [] ∨ puts = [] →
      suggest_strategies cross sentiment price calls puts = []) := by
  refine ⟨?_, ?_, ?_⟩
  · intro hc hs hcal
    subst hc hcal
    simp [suggest_strategies, hs, get_bullish_strategies, find_atm_option]
  · intro hc hs hput
    subst hc hput
    have hne : ¬(("BEARISH" : String) = "BULLISH" ∧ sentiment > 6/10) :=
      fun hx => absurd hx.1 (by decide)
    simp [suggest_strategies, hne, hs, get_bearish_strategies, find_atm_option]
  · intro hn1 hn2 hor
    have hsug : suggest_strategies cross sentiment price calls puts
        = get_neutral_strategies price calls puts := by
      simp [suggest_strategies, hn1, hn2]
    rw [hsug]
    rcases hor with hcal | hput
    · rw [hcal]
      exact get_neutral_strategies_nil_left price puts
    · rw [hput]
      exact get_neutral_strategies_nil_right price calls

/-- Witness for C9 on each family with the required leg absent. -/
theorem c9_empty_chain_witness :
    suggest_strategies "BULLISH" 1 100 [] [⟨50, 1, 1, none⟩] = [] ∧
    suggest_strategies "BEARISH" 0 100 [⟨50, 1, 1, none⟩] [] = [] ∧
    suggest_strategies "BEARISH" (1/2) 100 [] [⟨50, 1, 1, none⟩] = [] :=
  ⟨(c9_missing_leg_empty_strategies "BULLISH" 1 100 [] [⟨50, 1, 1, none⟩]).1
      rfl (by norm_num) rfl,
   (c9_missing_leg_empty_strategies "BEARISH" 0 100 [⟨50, 1, 1, none⟩] []).2.1
      rfl (by norm_num) rfl,
   (c9_missing_leg_empty_strategies "BEARISH" (1/2) 100 [] [⟨50, 1, 1, none⟩]).2.2
      (fun hx => absurd hx.1 (by decide))
      (fun hx => by norm_num at hx)
      (Or.inl rfl)⟩

/-- Claim C10, as stated, is false: `_find_atm_option` hands back its input
chain with the `strike_diff` column written into it — the caller's chain is
mutated, not left unchanged. -/
theorem c10_find_atm_mutates_chain :
    (find_atm_option 90 ex10chain).2 ≠ ex10chain := by
  norm_num [find_atm_option, ex10chain, set_strike_diff]
  exact Option.some_ne_none _

/-- Claim C10 (amended): `_find_atm_option` does mutate a nonempty input
chain, but only by writing the `strike_diff` column — erasing that column
recovers the original chain — and the mutation is idempotent: re-invoking it
on the mutated chain returns the same selection and the same chain. (An
empty chain is returned untouched.) -/
theorem c10_mutation_only_strike_diff (price : ℚ) (chain : List OptionRow) :
    (find_atm_option price chain).2.map clear_strike_diff
      = chain.map clear_strike_diff ∧
    find_atm_option price ((find_atm_option price chain).2)
      = find_atm_option price chain := by
  have hset : ∀ r, clear_strike_diff (set_strike_diff price r) = clear_strike_diff r :=
    fun _ => rfl
  have hsetset : ∀ r, set_strike_diff price (set_strike_diff price r)
      = set_strike_diff price r := fun _ => rfl
  by_cases hc : chain.isEmpty
  · simp [find_atm_option, hc]
  · have h2 : (find_atm_option price chain).2 = chain.map (set_strike_diff price) := by
      simp [find_atm_option, hc]
    have hw : (chain.map (set_strike_diff price)).map (set_strike_diff price)
        = chain.map (set_strike_diff price) := by
      rw [List.map_map]
      exact List.map_congr_left (fun r _ => hsetset r)
    have hne : (chain.map (set_strike_diff price)).isEmpty = false := by
      cases chain with
      | nil => simp at hc
      | cons a t => rfl
    constructor
    · rw [h2, List.map_map]
      exact List.map_congr_left (fun r _ => hset r)
    · rw [h2]
      unfold find_atm_option
      rw [if_neg (by simp [hne]), if_neg (by simp [hc]), hw]

/-! ## RSI (src/src/technical_analysis.py:131-146)
`TechnicalAnalysis.calculate_rsi` guards short history and NaN itself; the
numeric core it delegates to is the external talib.RSI, modelled here from
the spec's formula (§4.1). -/

/-- Close-to-close deltas: `Close.diff()` with the leading NaN dropped. -/
def diffs (closes : List ℚ) : List ℚ :=
  List.zipWith (fun a b => b - a) closes closes.tail

/-- The positive part of a delta. -/
def gainOf (d : ℚ) : ℚ := max d 0

/-- The magnitude of the negative part of a delta. -/
def lossOf (d : ℚ) : ℚ := max (-d) 0

/-- One Wilder smoothing step on the (avg gain, avg loss) pair. -/
def wilderStep (period : ℕ) (gl : ℚ × ℚ) (d : ℚ) : ℚ × ℚ :=
  ((gl.1 * ((period : ℚ) - 1) + gainOf d) / (period : ℚ),
   (gl.2 * ((period : ℚ) - 1) + lossOf d) / (period : ℚ))

/-- Modelled from the spec: the smoothed averages of talib.RSI, an external
library routine not in this repository, per §4.1 — "Wilder-style smoothed
average of positive and negative close-to-close deltas over `period`".
Seeded with the simple means of the first `period` gains and losses, then
recursively smoothed over the rest; `none` when fewer than `period` deltas
exist (talib yields NaN there). -/
def wilderAvgs (period : ℕ) (ds : List ℚ) : Option (ℚ × ℚ) :=
  if period = 0 ∨ ds.length < period then none
  else some ((ds.drop period).foldl (wilderStep period)
    ((((ds.take period).map gainOf).sum / (period : ℚ)),
     (((ds.take period).map lossOf).sum / (period : ℚ))))

/-- Modelled from the spec: RSI = 100 − 100/(1 + avg_gain/avg_loss), with
avg_loss = 0 giving RSI = 100 (§4.1). -/
def rsiFromAvgs (avgGain avgLoss : ℚ) : ℚ :=
  if avgLoss = 0 then 100 else 100 - 100 / (1 + avgGain / avgLoss)

/-- The talib.RSI value at the last bar, when defined. -/
def wilderRSI (period : ℕ) (closes : List ℚ) : Option ℚ :=
  (wilderAvgs period (diffs closes)).map (fun gl => rsiFromAvgs gl.1 gl.2)

/-- `TechnicalAnalysis.calculate_rsi` (technical_analysis.py:131-146): 50
when history is shorter than the period, otherwise the talib value with NaN
(`none`) also mapped to 50. -/
def calculate_rsi (period : ℕ) (closes : List ℚ) : ℚ :=
  if closes.length < period then 50
  else (wilderRSI period closes).getD 50

/-- Gains are non-negative. -/
lemma gainOf_nonneg (d : ℚ) : 0 ≤ gainOf d := le_max_right _ _

/-- Losses are non-negative. -/
lemma lossOf_nonneg (d : ℚ) : 0 ≤ lossOf d := le_max_right _ _

/-- A strictly positive delta contributes no loss. -/
lemma lossOf_eq_zero {d : ℚ} (h : 0 < d) : lossOf d = 0 :=
  max_eq_right (by linarith)

/-- Wilder smoothing keeps both averages non-negative. -/
lemma foldl_wilderStep_nonneg (period : ℕ) (hp : 0 < period) :
    ∀ (ds : List ℚ) (gl : ℚ × ℚ), 0 ≤ gl.1 → 0 ≤ gl.2 →
      0 ≤ (ds.foldl (wilderStep period) gl).1 ∧
      0 ≤ (ds.foldl (wilderStep period) gl).2
  | [], _, h1, h2 => ⟨h1, h2⟩
  | d :: ds, gl, h1, h2 => by
    rw [List.foldl_cons]
    have h1p : 1 ≤ period := hp
    have hpq : (1 : ℚ) ≤ (period : ℚ) := by exact_mod_cast h1p
    refine foldl_wilderStep_nonneg period hp ds _ ?_ ?_
    · show 0 ≤ (gl.1 * ((period : ℚ) - 1) + gainOf d) / (period : ℚ)
      exact div_nonneg
        (add_nonneg (mul_nonneg h1 (by linarith)) (gainOf_nonneg d))
        (by positivity)
    · show 0 ≤ (gl.2 * ((period : ℚ) - 1) + lossOf d) / (period : ℚ)
      exact div_nonneg
        (add_nonneg (mul_nonneg h2 (by linarith)) (lossOf_nonneg d))
        (by positivity)

/-- The smoothed averages, when defined, are non-negative. -/
lemma wilderAvgs_nonneg {period : ℕ} {ds : List ℚ} {gl : ℚ × ℚ}
    (h : wilderAvgs period ds = some gl) : 0 ≤ gl.1 ∧ 0 ≤ gl.2 := by
  unfold wilderAvgs at h
  split at h
  · exact absurd h (by simp)
  · rename_i hcond
    push_neg at hcond
    have hp : 0 < period := Nat.pos_of_ne_zero hcond.1
    injection h with h
    subst h
    refine foldl_wilderStep_nonneg period hp _ _ ?_ ?_
    · show 0 ≤ ((ds.take period).map gainOf).sum / (period : ℚ)
      refine div_nonneg (List.sum_nonneg ?_) (by positivity)
      intro x hx
      obtain ⟨d, _, rfl⟩ := List.mem_map.mp hx
      exact gainOf_nonneg d
    · show 0 ≤ ((ds.take period).map lossOf).sum / (period : ℚ)
      refine div_nonneg (List.sum_nonneg ?_) (by positivity)
      intro x hx
      obtain ⟨d, _, rfl⟩ := List.mem_map.mp hx
      exact lossOf_nonneg d

/-- The spec's RSI formula stays within [0, 100] on non-negative averages. -/
lemma rsiFromAvgs_bounds {g l : ℚ} (hg : 0 ≤ g) (hl : 0 ≤ l) :
    0 ≤ rsiFromAvgs g l ∧ rsiFromAvgs g l ≤ 100 := by
  unfold rsiFromAvgs
  split
  · norm_num
  · rename_i h0
    have hl' : 0 < l := lt_of_le_of_ne hl (Ne.symm h0)
    have hgl : 0 ≤ g / l := div_nonneg hg hl'.le
    have hq0 : 0 ≤ 100 / (1 + g / l) := div_nonneg (by norm_num) (by linarith)
    have hq1 : 100 / (1 + g / l) ≤ 100 := div_le_self (by norm_num) (by linarith)
    constructor <;> linarith

/-- There is one delta fewer than there are closes. -/
lemma diffs_length (closes : List ℚ) : (diffs closes).length = closes.length - 1 := by
  unfold diffs
  rw [List.length_zipWith, List.length_tail]
  omega

/-- If no delta contributes a loss, Wilder smoothing keeps the average loss
at zero. -/
lemma foldl_wilderStep_loss_zero (period : ℕ) :
    ∀ (ds : List ℚ) (g : ℚ), (∀ d ∈ ds, lossOf d = 0) →
      (ds.foldl (wilderStep period) (g, 0)).2 = 0
  | [], _, _ => rfl
  | d :: ds, g, h => by
    rw [List.foldl_cons]
    have hd : lossOf d = 0 := h d (List.mem_cons_self _ _)
    have hstep : wilderStep period (g, 0) d
        = ((g * ((period : ℚ) - 1) + gainOf d) / (period : ℚ), 0) := by
      unfold wilderStep
      rw [hd]
      norm_num
    rw [hstep]
    exact foldl_wilderStep_loss_zero period ds _
      (fun x hx => h x (List.mem_cons_of_mem _ hx))

end StockScreener

namespace StockScreener

/-- Claim C2: the computed RSI always lies in [0, 100]; when every
close-to-close delta is a gain the RSI is 100; and history shorter than the
period returns the neutral sentinel 50, not an error. -/
theorem c2_rsi_bounds_and_sentinels (period : ℕ) (closes : List ℚ) :
    (0 ≤ calculate_rsi period closes ∧ calculate_rsi period closes ≤ 100) ∧
    (1 ≤ period → period + 1 ≤ closes.length →
      (∀ d ∈ diffs closes, 0 < d) → calculate_rsi period closes = 100) ∧
    (closes.length < period → calculate_rsi period closes = 50) := by
  refine ⟨?_, ?_, ?_⟩
  · unfold calculate_rsi
    split
    · norm_num
    · unfold wilderRSI
      cases h : wilderAvgs period (diffs closes) with
      | none => norm_num
      | some gl =>
        have hb := rsiFromAvgs_bounds (wilderAvgs_nonneg h).1 (wilderAvgs_nonneg h).2
        simpa using hb
  · intro hp hlen hall
    have hdlen : period ≤ (diffs closes).length := by
      rw [diffs_length]; omega
    unfold calculate_rsi
    rw [if_neg (by omega)]
    unfold wilderRSI wilderAvgs
    rw [if_neg (by push_neg; exact ⟨by omega, by omega⟩)]
    have hinit : (((diffs closes).take period).map lossOf).sum = 0 := by
      apply List.sum_eq_zero
      intro x hx
      obtain ⟨d, hd, rfl⟩ := List.mem_map.mp hx
      exact lossOf_eq_zero (hall d (List.take_subset _ _ hd))
    rw [hinit, zero_div]
    have hsnd := foldl_wilderStep_loss_zero period ((diffs closes).drop period)
      ((((diffs closes).take period).map gainOf).sum / (period : ℚ))
      (fun d hd => lossOf_eq_zero (hall d (List.drop_subset _ _ hd)))
    simp only [Option.map_some', Option.getD_some, rsiFromAvgs, hsnd]
    norm_num
  · intro h
    unfold calculate_rsi
    rw [if_pos h]

/-- Witness for C2 at a three-close all-gain series and a one-close series. -/
theorem c2_rsi_witness :
    calculate_rsi 2 [1, 2, 4] = 100 ∧ calculate_rsi 14 [1] = 50 :=
  ⟨(c2_rsi_bounds_and_sentinels 2 [1, 2, 4]).2.1 (by norm_num) (by norm_num)
      (by norm_num [diffs]),
   (c2_rsi_bounds_and_sentinels 14 [1]).2.2 (by norm_num)⟩

end StockScreener
